import Mathlib

/-!
Shallow embedding of the Financial-Reporting-Dashboard repository:

* `src/data_generator/Financial Data Generator.py` — the synthetic SaaS
  transaction generator `generate_synthetic_saas_data`.
* `src/bigquery/setup/load_data_to_bigquery.py` — the CSV-to-BigQuery loader
  `load_data_to_bigquery`.

Randomness is modelled by an explicit oracle structure (`GenStream`): every
call site of `random.*` / `np.random.*` in the Python source reads from its
own oracle field, and the well-formedness predicate `GenWF` records exactly
the ranges the corresponding library call guarantees.  Python `datetime`
values are modelled as integer seconds; `datetime.day`/`datetime.month` are
recovered with the standard proleptic-Gregorian civil-calendar conversion.
Python `float` amounts are modelled as rationals.
-/

namespace FinDash

/-! ### Civil calendar (model of Python `datetime.day` / `datetime.month`)

`daysFromCivil`/`civilFromDays` are the standard proleptic-Gregorian
conversions between a calendar date and a day count relative to 1970-01-01.
-/

/-- Days since 1970-01-01 of the civil date `y-m-d` (proleptic Gregorian). -/
def daysFromCivil (y : ℤ) (m d : ℕ) : ℤ :=
  let y' : ℤ := if m ≤ 2 then y - 1 else y
  let era : ℤ := Int.fdiv y' 400
  let yoe : ℕ := (y' - era * 400).toNat
  let mp : ℕ := (m + 9) % 12
  let doy : ℕ := (153 * mp + 2) / 5 + d - 1
  let doe : ℕ := yoe * 365 + yoe / 4 - yoe / 100 + doy
  era * 146097 + (doe : ℤ) - 719468

/-- Civil date `(year, month, day)` of a day count since 1970-01-01. -/
def civilFromDays (z : ℤ) : ℤ × ℕ × ℕ :=
  let z' : ℤ := z + 719468
  let era : ℤ := Int.fdiv z' 146097
  let doe : ℕ := (z' - era * 146097).toNat
  let yoe : ℕ := (doe - doe / 1460 + doe / 36524 - doe / 146096) / 365
  let y : ℤ := (yoe : ℤ) + era * 400
  let doy : ℕ := doe - (365 * yoe + yoe / 4 - yoe / 100)
  let mp : ℕ := (5 * doy + 2) / 153
  let d : ℕ := doy - (153 * mp + 2) / 5 + 1
  let m : ℕ := if mp < 10 then mp + 3 else mp - 9
  (if m ≤ 2 then y + 1 else y, m, d)

/-- A timestamp is an integer count of seconds; `86400` seconds per day. -/
abbrev Timestamp := ℤ

def secondsPerDay : ℤ := 86400

/-- Model of Python `timestamp.month`. -/
def monthOf (ts : Timestamp) : ℕ := (civilFromDays (Int.fdiv ts secondsPerDay)).2.1

/-- Model of Python `timestamp.day` (day of month). -/
def dayOfMonth (ts : Timestamp) : ℕ := (civilFromDays (Int.fdiv ts secondsPerDay)).2.2

/-! ### Decimal printing (model of Python `str(i)` and `.zfill(6)`) -/

/-- Fuel-based decimal digit list of `n` (most significant first);
faithful model of Python `str(i)` for naturals. -/
def natDigitsAux : ℕ → ℕ → List Char
  | 0, _ => []
  | fuel + 1, n =>
    if n < 10 then [Nat.digitChar n]
    else natDigitsAux fuel (n / 10) ++ [Nat.digitChar (n % 10)]

/-- Model of Python `str(i)` for a natural number `i`. -/
def natStr (n : ℕ) : String := ⟨natDigitsAux (n + 1) n⟩

/-- Model of Python `s.zfill(6)`: left-pad with `'0'` to length 6. -/
def zfill6 (s : String) : String := ⟨List.replicate (6 - s.data.length) '0' ++ s.data⟩

/-- Model of Python `f'CUST_{str(i).zfill(6)}'`. -/
def custId (i : ℕ) : String := "CUST_" ++ zfill6 (natStr i)

/-- Model of the Python string slice `s[n:]` (drop the first `n` characters). -/
def strSliceFrom (s : String) (n : ℕ) : String := ⟨s.data.drop n⟩

/-! Decimal value of a digit string, used to invert `custId`. -/

def evalDigitStep (a : ℕ) (c : Char) : ℕ := 10 * a + (c.toNat - 48)

def evalDigits (cs : List Char) : ℕ := cs.foldl evalDigitStep 0

theorem digitChar_toNat {d : ℕ} (h : d < 10) : (Nat.digitChar d).toNat = 48 + d := by
  interval_cases d <;> rfl

theorem natDigitsAux_foldl (fuel : ℕ) :
    ∀ n a, n < fuel →
      List.foldl evalDigitStep a (natDigitsAux fuel n) =
        a * 10 ^ (natDigitsAux fuel n).length + n := by
  induction fuel with
  | zero => intro n a h; omega
  | succ fuel ih =>
    intro n a h
    by_cases h10 : n < 10
    · simp [natDigitsAux, h10, evalDigitStep, digitChar_toNat h10]; ring
    · have hdiv : n / 10 < fuel := by
        have : n / 10 < n := Nat.div_lt_self (by omega) (by omega)
        omega
      have hmod : n % 10 < 10 := Nat.mod_lt _ (by omega)
      simp only [natDigitsAux, if_neg h10, List.foldl_append, List.length_append,
        List.length_singleton]
      rw [ih (n / 10) a hdiv]
      simp [evalDigitStep, digitChar_toNat hmod, pow_succ]
      have : 10 * (n / 10) + n % 10 = n := Nat.div_add_mod n 10
      ring_nf
      omega

theorem evalDigits_natStr (n : ℕ) : evalDigits (natStr n).data = n := by
  have := natDigitsAux_foldl (n + 1) n 0 (Nat.lt_succ_self n)
  simpa [evalDigits, natStr] using this

theorem evalDigits_replicate_zero (k : ℕ) (l : List Char) :
    evalDigits (List.replicate k '0' ++ l) = evalDigits l := by
  induction k with
  | zero => simp
  | succ k ih =>
    simpa [List.replicate_succ, evalDigits, evalDigitStep] using ih

/-- Decoder inverting `custId`. -/
def custIdDecode (s : String) : ℕ := evalDigits (s.data.drop 5)

theorem custIdDecode_custId (n : ℕ) : custIdDecode (custId n) = n := by
  have hdata : (custId n).data = "CUST_".data ++ (zfill6 (natStr n)).data := by
    simp [custId, String.data_append]
  have hlen : ("CUST_".data).length = 5 := rfl
  rw [custIdDecode, hdata]
  rw [show (5 : ℕ) = ("CUST_".data).length from rfl, List.drop_left]
  show evalDigits (List.replicate _ '0' ++ (natStr n).data) = n
  rw [evalDigits_replicate_zero, evalDigits_natStr]

theorem custId_injective : Function.Injective custId := by
  intro a b h
  have := congrArg custIdDecode h
  simpa [custIdDecode_custId] using this

/-! ### Generator data model (`Financial Data Generator.py`) -/

/-- One generated transaction record (one row of the pandas DataFrame). -/
structure Row where
  transaction_id : String
  timestamp : Timestamp
  customer_id : String
  amount : ℚ
  transaction_type : String
  subscription_plan : String
  category : String
  region : String
  payment_status : String
  customer_type : String
deriving DecidableEq

/-- The fixed enumerations of the generator, verbatim from the source. -/
def transaction_types : List String :=
  ["Subscription", "Refund", "One-Time Purchase", "Upgrade", "Downgrade", "Add-on"]

def subscription_plans : List String := ["Free", "Basic", "Pro", "Enterprise", "Custom"]

/-- `plan_prices = {'Free': 0, 'Basic': 19.99, 'Pro': 49.99, 'Enterprise': 199.99,
'Custom': 499.99}`. -/
def plan_prices (plan : String) : ℚ :=
  if plan = "Free" then 0
  else if plan = "Basic" then 1999 / 100
  else if plan = "Pro" then 4999 / 100
  else if plan = "Enterprise" then 19999 / 100
  else if plan = "Custom" then 49999 / 100
  else 0

def expense_categories : List String :=
  ["Marketing Cost", "Operational Expense", "Infrastructure Cost",
   "Customer Support", "R&D", "Administrative"]

def regions : List String := ["US", "EU", "APAC", "LATAM", "MEA"]

def payment_statuses : List String := ["Completed", "Pending", "Failed", "Refunded", "Disputed"]

def customer_types : List String := ["B2C", "SMB", "Mid-Market", "Enterprise"]

def non_subscription_types : List String :=
  ["Refund", "One-Time Purchase", "Upgrade", "Downgrade", "Add-on"]

/-- The candidate plans of `assign_plan` for each customer type. -/
def assign_plan_options (ctype : String) : List String :=
  if ctype = "B2C" then ["Free", "Basic", "Pro"]
  else if ctype = "SMB" then ["Basic", "Pro"]
  else if ctype = "Mid-Market" then ["Pro", "Enterprise"]
  else ["Enterprise", "Custom"]

/-- Model of Python `round(x, 2)` (round to two decimal places). -/
def roundTo2 (q : ℚ) : ℚ := ((round (q * 100) : ℤ) : ℚ) / 100

/-- Oracle for every random draw of the generator.  Each field corresponds to
one `random.*` / `np.random.*` call site in the source, indexed by the loop
index (row index, customer index, or failed-row index) at which it is read. -/
structure GenStream where
  /-- `np.random.choice(customer_types, p=customer_type_weights)`, per customer. -/
  custTypeIdx : ℕ → ℕ
  /-- choice inside `assign_plan`, per customer (index into the branch's list). -/
  planIdx : ℕ → ℕ
  /-- `np.random.randint(date_range)`, per row. -/
  dayOffset : ℕ → ℕ
  /-- `random.randint(8, 20)`, per row. -/
  hourOf : ℕ → ℕ
  /-- `random.randint(0, 59)` (minutes), per row. -/
  minuteOf : ℕ → ℕ
  /-- `random.randint(0, 59)` (seconds), per row. -/
  secondOf : ℕ → ℕ
  /-- `np.random.choice(customer_ids)`, per row (index into the pool). -/
  custPick : ℕ → ℕ
  /-- `random.random() < 0.1`, per row. -/
  nonSubRoll : ℕ → Bool
  /-- `np.random.choice(['Refund', ...])`, per row. -/
  nonSubIdx : ℕ → ℕ
  /-- `np.random.choice([... expense categories ...])`, per row. -/
  expCatIdx : ℕ → ℕ
  /-- `random.uniform(10, 100)` for Upgrade, per row. -/
  upgradeAmt : ℕ → ℚ
  /-- `random.uniform(5, 50)` for Add-on, per row. -/
  addonAmt : ℕ → ℚ
  /-- `random.uniform(20, 500)` for One-Time Purchase, per row. -/
  otpAmt : ℕ → ℚ
  /-- `random.uniform(0.1, 1.0)` for Refund, per row. -/
  refundFrac : ℕ → ℚ
  /-- `random.uniform(10, 100)` for Downgrade in the Revenue branch, per row. -/
  downgradeAmt : ℕ → ℚ
  /-- `random.uniform(10, 5000)` for Marketing Cost, per row. -/
  mktAmt : ℕ → ℚ
  /-- `random.uniform(50, 2000)` for Infrastructure Cost, per row. -/
  infraAmt : ℕ → ℚ
  /-- `random.uniform(20, 1000)` for the other expense categories, per row. -/
  otherExpAmt : ℕ → ℚ
  /-- `np.random.choice(regions, p=region_weights)`, per row. -/
  regionIdx : ℕ → ℕ
  /-- `np.random.choice(payment_statuses, p=status_weights)`, per row. -/
  statusIdx : ℕ → ℕ
  /-- `random.uniform(1.0, 1.2)` end-of-month multiplier, per row. -/
  eomMult : ℕ → ℚ
  /-- `random.uniform(1.1, 1.3)` December multiplier, per row. -/
  decMult : ℕ → ℚ
  /-- the 12 uppercased hex characters taken from `uuid.uuid4()`, per row. -/
  uuidPart : ℕ → String
  /-- `random.random() < 0.7`, per failed row index. -/
  retryRoll : ℕ → Bool
  /-- `random.randint(1, 7)`, per failed row index. -/
  retryDays : ℕ → ℕ
  /-- the row positions selected by `df.sample(num_rows, random_state=42)`. -/
  sampleIdxs : List ℕ

/-- `num_customers = int(num_rows / 10)`. -/
def numCustomers (num_rows : ℕ) : ℕ := num_rows / 10

/-- `customer_ids = [f'CUST_{str(i).zfill(6)}' for i in range(1, num_customers + 1)]`. -/
def customerIds (num_rows : ℕ) : List String :=
  (List.range (numCustomers num_rows)).map (fun k => custId (k + 1))

/-- `customer_type_map[cid]`, as a function of the customer's pool index. -/
def customerTypeOf (s : GenStream) (cidx : ℕ) : String :=
  customer_types.getD (s.custTypeIdx cidx) ""

/-- `customer_plan_map[cid]`, as a function of the customer's pool index. -/
def customerPlanOf (s : GenStream) (cidx : ℕ) : String :=
  (assign_plan_options (customerTypeOf s cidx)).getD (s.planIdx cidx) ""

/-- The sorted date list (`sorted_dates`) followed by the per-row time
component, producing the `timestamps` list of the source. -/
def timestampsList (num_rows : ℕ) (startDay : ℤ) (s : GenStream) : List Timestamp :=
  let sorted_dates : List ℤ :=
    ((List.range num_rows).map (fun j => startDay + (s.dayOffset j : ℤ))).insertionSort (· ≤ ·)
  (List.range num_rows).map (fun i =>
    (sorted_dates.getD i 0) * secondsPerDay +
      (s.hourOf i : ℤ) * 3600 + (s.minuteOf i : ℤ) * 60 + (s.secondOf i : ℤ))

/-- The transaction type of row `i` (`'Subscription'` unless `i > 0` and the
10% roll fires). -/
def txTypeOf (s : GenStream) (i : ℕ) : String :=
  if 0 < i ∧ s.nonSubRoll i then non_subscription_types.getD (s.nonSubIdx i) ""
  else "Subscription"

/-- The category of row `i`, following the source's if/elif/else chain. -/
def categoryOf (s : GenStream) (i : ℕ) : String :=
  let tx_type := txTypeOf s i
  if tx_type ∈ ["Subscription", "One-Time Purchase", "Upgrade", "Add-on"] then "Revenue"
  else if tx_type = "Refund" then "Revenue"
  else expense_categories.getD (s.expCatIdx i) ""

/-- The pre-seasonality amount of row `i` (the `amount = ...` if/elif chain). -/
def baseAmountOf (s : GenStream) (i : ℕ) (plan : String) : ℚ :=
  let tx_type := txTypeOf s i
  let category := categoryOf s i
  let base_price := plan_prices plan
  if category = "Revenue" then
    if tx_type = "Subscription" then base_price
    else if tx_type = "Upgrade" then s.upgradeAmt i
    else if tx_type = "Add-on" then s.addonAmt i
    else if tx_type = "One-Time Purchase" then s.otpAmt i
    else if tx_type = "Refund" then -base_price * s.refundFrac i
    else -s.downgradeAmt i
  else
    if category = "Marketing Cost" then -s.mktAmt i
    else if category = "Infrastructure Cost" then -s.infraAmt i
    else -s.otherExpAmt i

/-- The amount of row `i` after the end-of-month and December seasonal
multipliers. -/
def seasonalAmountOf (s : GenStream) (i : ℕ) (ts : Timestamp) (plan : String) : ℚ :=
  let a₀ := baseAmountOf s i plan
  let a₁ := if 25 ≤ dayOfMonth ts ∧ txTypeOf s i = "Subscription"
            then a₀ * s.eomMult i else a₀
  if monthOf ts = 12 then a₁ * s.decMult i else a₁

/-- Row `i` of the first generation pass. -/
def originalRow (num_rows : ℕ) (startDay : ℤ) (s : GenStream) (i : ℕ) : Row :=
  let cidx := s.custPick i
  let plan := customerPlanOf s cidx
  let ts := (timestampsList num_rows startDay s).getD i 0
  let category := categoryOf s i
  { transaction_id := (if category = "Revenue" then "REV_" else "EXP_") ++ s.uuidPart i
    timestamp := ts
    customer_id := (customerIds num_rows).getD cidx ""
    amount := roundTo2 (seasonalAmountOf s i ts plan)
    transaction_type := txTypeOf s i
    subscription_plan := plan
    category := category
    region := regions.getD (s.regionIdx i) ""
    payment_status := payment_statuses.getD (s.statusIdx i) ""
    customer_type := customerTypeOf s cidx }

/-- The list built by the first `for i in range(num_rows)` loop. -/
def originalRows (num_rows : ℕ) (startDay : ℤ) (s : GenStream) : List Row :=
  (List.range num_rows).map (originalRow num_rows startDay s)

/-- The retry row synthesized from failed row `o` at index `idx`, when the 70%
roll fires and the retry date stays inside the range (`None` otherwise). -/
def retryOf (endDay : ℤ) (s : GenStream) (idx : ℕ) (o : Row) : Option Row :=
  if o.payment_status = "Failed" ∧ s.retryRoll idx then
    let retry_date := o.timestamp + (s.retryDays idx : ℤ) * secondsPerDay
    if retry_date ≤ endDay * secondsPerDay then
      some { o with timestamp := retry_date
                    payment_status := "Completed"
                    transaction_id := "RETRY_" ++ strSliceFrom o.transaction_id 4 }
    else none
  else none

/-- The rows appended by the retry post-processing pass, in order. -/
def retryRows (endDay : ℤ) (s : GenStream) (rows : List Row) : List Row :=
  (List.range rows.length).filterMap (fun idx => (rows[idx]?).bind (retryOf endDay s idx))

/-- `df.sort_values('timestamp')`. -/
def sortByTs (rows : List Row) : List Row :=
  rows.insertionSort (fun a b => a.timestamp ≤ b.timestamp)

/-- `df.sample(num_rows, random_state=42)`: select the rows at the oracle's
positions. -/
def pandasSample (idxs : List ℕ) (rows : List Row) : List Row :=
  idxs.filterMap (fun j => rows[j]?)

/-- The DataFrame after appending retries and the first `sort_values`. -/
def preSample (num_rows : ℕ) (startDay endDay : ℤ) (s : GenStream) : List Row :=
  let rows := originalRows num_rows startDay s
  sortByTs (rows ++ retryRows endDay s rows)

/-- `generate_synthetic_saas_data`, with the parsed dates given as day counts
and all randomness taken from the oracle `s`. -/
def generate_synthetic_saas_data (num_rows : ℕ) (startDay endDay : ℤ)
    (s : GenStream) : List Row :=
  let df := preSample num_rows startDay endDay s
  if num_rows < df.length then sortByTs (pandasSample s.sampleIdxs df) else df

/-- Well-formedness of the oracle: each field lies in the range that the
corresponding Python library call guarantees for its result. -/
structure GenWF (num_rows : ℕ) (startDay endDay : ℤ) (s : GenStream) : Prop where
  custTypeIdx_lt : ∀ c, s.custTypeIdx c < customer_types.length
  planIdx_lt : ∀ c, s.planIdx c < (assign_plan_options (customerTypeOf s c)).length
  dayOffset_lt : ∀ i, (s.dayOffset i : ℤ) < endDay - startDay
  hour_range : ∀ i, 8 ≤ s.hourOf i ∧ s.hourOf i ≤ 20
  minute_le : ∀ i, s.minuteOf i ≤ 59
  second_le : ∀ i, s.secondOf i ≤ 59
  custPick_lt : ∀ i, s.custPick i < numCustomers num_rows
  nonSubIdx_lt : ∀ i, s.nonSubIdx i < non_subscription_types.length
  expCatIdx_lt : ∀ i, s.expCatIdx i < expense_categories.length
  upgrade_range : ∀ i, 10 ≤ s.upgradeAmt i ∧ s.upgradeAmt i ≤ 100
  addon_range : ∀ i, 5 ≤ s.addonAmt i ∧ s.addonAmt i ≤ 50
  otp_range : ∀ i, 20 ≤ s.otpAmt i ∧ s.otpAmt i ≤ 500
  refund_range : ∀ i, 1 / 10 ≤ s.refundFrac i ∧ s.refundFrac i ≤ 1
  downgrade_range : ∀ i, 10 ≤ s.downgradeAmt i ∧ s.downgradeAmt i ≤ 100
  mkt_range : ∀ i, 10 ≤ s.mktAmt i ∧ s.mktAmt i ≤ 5000
  infra_range : ∀ i, 50 ≤ s.infraAmt i ∧ s.infraAmt i ≤ 2000
  otherExp_range : ∀ i, 20 ≤ s.otherExpAmt i ∧ s.otherExpAmt i ≤ 1000
  regionIdx_lt : ∀ i, s.regionIdx i < regions.length
  statusIdx_lt : ∀ i, s.statusIdx i < payment_statuses.length
  eom_range : ∀ i, 1 ≤ s.eomMult i ∧ s.eomMult i ≤ 12 / 10
  dec_range : ∀ i, 11 / 10 ≤ s.decMult i ∧ s.decMult i ≤ 13 / 10
  retryDays_range : ∀ i, 1 ≤ s.retryDays i ∧ s.retryDays i ≤ 7

/-- The contract of `df.sample(num_rows, random_state=42)`: it returns exactly
`num_rows` distinct row positions of the DataFrame it is applied to. -/
def SampleWF (num_rows : ℕ) (startDay endDay : ℤ) (s : GenStream) : Prop :=
  s.sampleIdxs.length = num_rows ∧ s.sampleIdxs.Nodup ∧
    ∀ j ∈ s.sampleIdxs, j < (preSample num_rows startDay endDay s).length

/-! ### Loader (`load_data_to_bigquery.py`)

The loader's control flow is embedded over an environment that records, for
each fallible step of the process, whether that step succeeds (and with what
value) or raises.  Logging is side-effect-free and omitted.
-/

/-- The in-memory DataFrame view the loader needs: row count and columns. -/
structure CsvFrame where
  nRows : ℕ
  cols : List String
deriving DecidableEq

/-- Outcomes of every fallible step inside the `try:` block, in source order.
`Except.error` models the step raising an exception. -/
structure LoadEnv where
  /-- `os.path.exists(csv_file)` -/
  csvExists : Bool
  /-- `pd.read_csv(csv_file)` -/
  readCsv : Except String CsvFrame
  /-- `pd.to_datetime(df['timestamp'])` -/
  toDatetime : CsvFrame → Except String CsvFrame
  /-- `bigquery.Client.from_service_account_json(key_path)` -/
  clientInit : Except String Unit
  /-- `client.get_dataset(dataset_id)` -/
  getDataset : Except String Unit
  /-- `client.create_dataset(dataset)` -/
  createDataset : Except String Unit
  /-- `client.load_table_from_dataframe(df, full_table_id, job_config=...)` -/
  submitLoadJob : CsvFrame → Except String Unit
  /-- `load_job.result()` -/
  jobResult : Except String Unit
  /-- `client.get_table(full_table_id)` (returns `table.num_rows`) -/
  getTable : Except String ℕ

/-- The body of the `try:` block after the file-existence check: every
remaining fallible step, sequenced exactly as in the source.  The inner
`try/except` around the dataset check falls back to `create_dataset` on any
exception from `get_dataset`. -/
def timestampStep (env : LoadEnv) (df : CsvFrame) : Except String CsvFrame :=
  if "timestamp" ∈ df.cols then env.toDatetime df else pure df

def loadSteps (env : LoadEnv) : Except String ℕ := do
  let df ← env.readCsv
  let df ← timestampStep env df
  let _ ← env.clientInit
  let _ ← match env.getDataset with
          | .ok u => Except.ok u
          | .error _ => env.createDataset
  let _ ← env.submitLoadJob df
  let _ ← env.jobResult
  let _rows ← env.getTable
  pure _rows

/-- `load_data_to_bigquery`: `False` when the CSV file does not exist, and
otherwise `True` exactly when the whole load process runs to completion; any
exception is caught by the two `except` clauses and converted to `False`. -/
def load_data_to_bigquery (env : LoadEnv) : Bool :=
  if !env.csvExists then false
  else
    match loadSteps env with
    | .ok _ => true
    | .error _ => false

/-! ### Structural lemmas about the generator pipeline -/

theorem length_originalRows (num_rows : ℕ) (startDay : ℤ) (s : GenStream) :
    (originalRows num_rows startDay s).length = num_rows := by
  simp [originalRows]

theorem originalRows_getElem {num_rows : ℕ} {startDay : ℤ} {s : GenStream} {i : ℕ}
    (h : i < (originalRows num_rows startDay s).length) :
    (originalRows num_rows startDay s)[i] = originalRow num_rows startDay s i := by
  simp [originalRows]

theorem mem_sortByTs {r : Row} {l : List Row} : r ∈ sortByTs l ↔ r ∈ l :=
  (List.perm_insertionSort _ l).mem_iff

theorem length_sortByTs (l : List Row) : (sortByTs l).length = l.length :=
  List.length_insertionSort _ l

theorem mem_pandasSample {idxs : List ℕ} {rows : List Row} {r : Row}
    (h : r ∈ pandasSample idxs rows) : r ∈ rows := by
  rcases List.mem_filterMap.1 h with ⟨j, _, hj⟩
  rcases List.getElem?_eq_some.1 hj with ⟨hlt, heq⟩
  exact heq ▸ List.getElem_mem hlt

theorem retryOf_eq_some {endDay : ℤ} {s : GenStream} {idx : ℕ} {o r : Row}
    (h : retryOf endDay s idx o = some r) :
    o.payment_status = "Failed" ∧ s.retryRoll idx = true ∧
    r.timestamp = o.timestamp + (s.retryDays idx : ℤ) * secondsPerDay ∧
    r.timestamp ≤ endDay * secondsPerDay ∧
    r.payment_status = "Completed" ∧
    r.transaction_id = "RETRY_" ++ strSliceFrom o.transaction_id 4 ∧
    r.customer_id = o.customer_id ∧ r.amount = o.amount ∧
    r.transaction_type = o.transaction_type ∧
    r.subscription_plan = o.subscription_plan ∧ r.category = o.category ∧
    r.region = o.region ∧ r.customer_type = o.customer_type := by
  simp only [retryOf] at h
  split_ifs at h with h1 h2
  · injection h with h
    subst h
    exact ⟨h1.1, h1.2, rfl, by simpa [secondsPerDay] using h2,
      rfl, rfl, rfl, rfl, rfl, rfl, rfl, rfl, rfl⟩

theorem mem_retryRows {endDay : ℤ} {s : GenStream} {rows : List Row} {r : Row} :
    r ∈ retryRows endDay s rows ↔
      ∃ idx, ∃ h : idx < rows.length, retryOf endDay s idx rows[idx] = some r := by
  unfold retryRows
  rw [List.mem_filterMap]
  constructor
  · rintro ⟨idx, hidx, hbind⟩
    have hlt : idx < rows.length := List.mem_range.1 hidx
    refine ⟨idx, hlt, ?_⟩
    rwa [List.getElem?_eq_getElem hlt, Option.some_bind] at hbind
  · rintro ⟨idx, hlt, h⟩
    exact ⟨idx, List.mem_range.2 hlt,
      by rw [List.getElem?_eq_getElem hlt, Option.some_bind]; exact h⟩

/-- Provenance: every row of the final output is either an original row or the
retry record of an original row. -/
theorem mem_generate {num_rows : ℕ} {startDay endDay : ℤ} {s : GenStream} {r : Row}
    (h : r ∈ generate_synthetic_saas_data num_rows startDay endDay s) :
    ∃ i < num_rows,
      r = originalRow num_rows startDay s i ∨
        retryOf endDay s i (originalRow num_rows startDay s i) = some r := by
  have hpre : r ∈ preSample num_rows startDay endDay s := by
    simp only [generate_synthetic_saas_data] at h
    split_ifs at h with hc
    · exact mem_pandasSample (mem_sortByTs.1 h)
    · exact h
  have hmem := mem_sortByTs.1 hpre
  rcases List.mem_append.1 hmem with hl | hr
  · unfold originalRows at hl
    rcases List.mem_map.1 hl with ⟨i, hi, heq⟩
    exact ⟨i, List.mem_range.1 hi, Or.inl heq.symm⟩
  · rcases mem_retryRows.1 hr with ⟨idx, hlt, hro⟩
    rw [originalRows_getElem hlt] at hro
    rw [length_originalRows] at hlt
    exact ⟨idx, hlt, Or.inr hro⟩

/-! ### Loader lemmas -/

/-- The success condition of the loader, step by step: the file exists and
every fallible step returns normally, where an exception from `get_dataset`
is recovered by a successful `create_dataset`. -/
def LoadSucceeds (env : LoadEnv) : Prop :=
  env.csvExists = true ∧
  ∃ df, env.readCsv = .ok df ∧
    ∃ df', timestampStep env df = .ok df' ∧
      env.clientInit = .ok () ∧
      (env.getDataset = .ok () ∨
        ((∃ e, env.getDataset = .error e) ∧ env.createDataset = .ok ())) ∧
      env.submitLoadJob df' = .ok () ∧
      env.jobResult = .ok () ∧
      ∃ n, env.getTable = .ok n

theorem exceptBind_ok {α β : Type} (a : α) (f : α → Except String β) :
    (Except.ok a >>= f) = f a := rfl

theorem exceptBind_error {α β : Type} (e : String) (f : α → Except String β) :
    ((Except.error e : Except String α) >>= f) = Except.error e := rfl

theorem loadSteps_ok_iff (env : LoadEnv) :
    (∃ n, loadSteps env = .ok n) ↔
      (∃ df, env.readCsv = .ok df ∧
        ∃ df', timestampStep env df = .ok df' ∧
          env.clientInit = .ok () ∧
          (env.getDataset = .ok () ∨
            ((∃ e, env.getDataset = .error e) ∧ env.createDataset = .ok ())) ∧
          env.submitLoadJob df' = .ok () ∧
          env.jobResult = .ok () ∧
          ∃ n, env.getTable = .ok n) := by
  unfold loadSteps
  cases hrc : env.readCsv with
  | error e => simp [hrc, exceptBind_error]
  | ok df =>
    simp only [hrc, exceptBind_ok]
    cases hdt : timestampStep env df with
    | error e => simp [hdt, exceptBind_error]
    | ok df' =>
      simp only [hdt, exceptBind_ok]
      cases hci : env.clientInit with
      | error e => simp [hci, exceptBind_error]
      | ok u =>
        cases u
        simp only [hci, exceptBind_ok]
        cases hgd : env.getDataset with
        | ok u =>
          cases u
          simp only [hgd, exceptBind_ok]
          cases hsj : env.submitLoadJob df' with
          | error e => simp [hsj, hdt, exceptBind_error]
          | ok u =>
            cases u
            simp only [hsj, exceptBind_ok]
            cases hjr : env.jobResult with
            | error e => simp [hjr, hdt, hsj, exceptBind_error]
            | ok u =>
              cases u
              simp only [hjr, exceptBind_ok]
              cases hgt : env.getTable with
              | error e2 => simp [hgt, hdt, hsj, exceptBind_error]
              | ok n =>
                simp [hgt, exceptBind_ok, exceptBind_error]
                exact ⟨df', hdt, hsj⟩
        | error e =>
          simp only [hgd]
          cases hcd : env.createDataset with
          | error e' => simp [hcd, exceptBind_error]
          | ok u =>
            cases u
            simp only [hcd, exceptBind_ok]
            cases hsj : env.submitLoadJob df' with
            | error e' => simp [hsj, hdt, exceptBind_error]
            | ok u =>
              cases u
              simp only [hsj, exceptBind_ok]
              cases hjr : env.jobResult with
              | error e' => simp [hjr, hdt, hsj, exceptBind_error]
              | ok u =>
                cases u
                simp only [hjr, exceptBind_ok]
                cases hgt : env.getTable with
                | error e2 => simp [hgt, hdt, hsj, exceptBind_error]
                | ok n =>
                  simp [hgt, exceptBind_ok, exceptBind_error]
                  exact ⟨df', hdt, hsj⟩

/-! ### Claim theorems: loader -/

/-- C7: for every input where the CSV file path does not exist,
`load_data_to_bigquery` returns `False` (no exception reaches the caller: the
function is total and Boolean-valued). -/
theorem loader_missing_file_false (env : LoadEnv) (h : env.csvExists = false) :
    load_data_to_bigquery env = false := by
  simp [load_data_to_bigquery, h]

/-- A loader environment whose CSV file is absent and every service step would
succeed. -/
def missingFileEnv : LoadEnv :=
  { csvExists := false
    readCsv := .ok ⟨0, []⟩
    toDatetime := fun f => .ok f
    clientInit := .ok ()
    getDataset := .ok ()
    createDataset := .ok ()
    submitLoadJob := fun _ => .ok ()
    jobResult := .ok ()
    getTable := .ok 0 }

theorem loader_missing_file_false_witness :
    missingFileEnv.csvExists = false ∧ load_data_to_bigquery missingFileEnv = false :=
  ⟨rfl, loader_missing_file_false missingFileEnv rfl⟩

/-- C8 (amended): `load_data_to_bigquery` is total and Boolean-valued (no
exception is re-raised, there is no retry), and it returns `True` exactly when
the file exists and every step of the load completes — where an exception from
the dataset-existence check alone is not a failure: it is recovered by
`create_dataset`, and only a failure of that fallback (or of any other step)
yields `False`. -/
theorem loader_true_iff_success (env : LoadEnv) :
    load_data_to_bigquery env = true ↔ LoadSucceeds env := by
  unfold load_data_to_bigquery LoadSucceeds
  cases hc : env.csvExists with
  | false => simp
  | true =>
    simp only [Bool.not_true, Bool.false_eq_true, if_false, true_and]
    rw [← loadSteps_ok_iff]
    cases hs : loadSteps env <;> simp

/-- C8 (counterexample to the claim as stated): an input on which the dataset
check raises an exception and yet the loader returns `True`, contradicting
"every exception raised anywhere inside the load process (… dataset check …)
is caught and the function returns the boolean False". -/
def dsCheckFailsEnv : LoadEnv :=
  { csvExists := true
    readCsv := .ok ⟨15000, ["transaction_id", "timestamp", "customer_id", "amount"]⟩
    toDatetime := fun f => .ok f
    clientInit := .ok ()
    getDataset := .error "403 permission denied"
    createDataset := .ok ()
    submitLoadJob := fun _ => .ok ()
    jobResult := .ok ()
    getTable := .ok 15000 }

theorem loader_dataset_exception_counterexample :
    (∃ e, dsCheckFailsEnv.getDataset = Except.error e) ∧
      load_data_to_bigquery dsCheckFailsEnv = true :=
  ⟨⟨"403 permission denied", rfl⟩, rfl⟩

/-! ### Claim theorems: generator ordering and length -/

instance : IsTrans Row (fun a b => a.timestamp ≤ b.timestamp) :=
  ⟨fun _ _ _ => le_trans⟩

instance : IsTotal Row (fun a b => a.timestamp ≤ b.timestamp) :=
  ⟨fun a b => le_total a.timestamp b.timestamp⟩

theorem sortByTs_sorted (l : List Row) :
    (sortByTs l).Sorted (fun a b => a.timestamp ≤ b.timestamp) :=
  List.sorted_insertionSort _ l

/-- C5: in the final returned DataFrame, timestamps are non-decreasing between
consecutive rows — on both exits (with and without downsampling). -/
theorem final_timestamps_sorted (num_rows : ℕ) (startDay endDay : ℤ) (s : GenStream) :
    (generate_synthetic_saas_data num_rows startDay endDay s).Chain'
      (fun a b => a.timestamp ≤ b.timestamp) := by
  simp only [generate_synthetic_saas_data]
  split_ifs <;> exact (sortByTs_sorted _).chain'

theorem length_pandasSample {idxs : List ℕ} {rows : List Row}
    (h : ∀ j ∈ idxs, j < rows.length) :
    (pandasSample idxs rows).length = idxs.length := by
  unfold pandasSample
  induction idxs with
  | nil => simp
  | cons j js ih =>
    simp only [List.filterMap_cons]
    rw [List.getElem?_eq_getElem (h j (List.mem_cons_self j js))]
    simp only [List.length_cons]
    rw [ih (fun k hk => h k (List.mem_cons_of_mem j hk))]

theorem length_preSample (num_rows : ℕ) (startDay endDay : ℤ) (s : GenStream) :
    (preSample num_rows startDay endDay s).length =
      num_rows + (retryRows endDay s (originalRows num_rows startDay s)).length := by
  unfold preSample
  rw [length_sortByTs, List.length_append, length_originalRows]

/-- C3: the returned DataFrame has exactly `num_rows` rows, on both exits:
retry augmentation only ever adds rows, and when it does, downsampling removes
exactly the surplus. -/
theorem generate_length_eq (num_rows : ℕ) (startDay endDay : ℤ) (s : GenStream)
    (hs : SampleWF num_rows startDay endDay s) :
    (generate_synthetic_saas_data num_rows startDay endDay s).length = num_rows := by
  obtain ⟨hlen, _, hbound⟩ := hs
  simp only [generate_synthetic_saas_data]
  split_ifs with hc
  · rw [length_sortByTs, length_pandasSample hbound, hlen]
  · push_neg at hc
    have := length_preSample num_rows startDay endDay s
    omega

/-! ### Claim theorem: the retry pass (C4) -/

/-- C4: every record appended by the retry pass stems from a `'Failed'`
original row; its status is `'Completed'`, its timestamp is the origin's plus
1–7 days and stays within `end_date`, its transaction id is `'RETRY_'`
followed by the origin's id with the first four characters removed, and every
other field equals the origin's. -/
theorem retry_record_spec (num_rows : ℕ) (startDay endDay : ℤ) (s : GenStream)
    (wf : GenWF num_rows startDay endDay s) :
    ∀ r ∈ retryRows endDay s (originalRows num_rows startDay s),
      ∃ i < num_rows,
        (originalRow num_rows startDay s i).payment_status = "Failed" ∧
        r.payment_status = "Completed" ∧
        (∃ d : ℕ, 1 ≤ d ∧ d ≤ 7 ∧
          r.timestamp = (originalRow num_rows startDay s i).timestamp +
            (d : ℤ) * secondsPerDay) ∧
        r.timestamp ≤ endDay * secondsPerDay ∧
        r.transaction_id =
          "RETRY_" ++ strSliceFrom (originalRow num_rows startDay s i).transaction_id 4 ∧
        r.customer_id = (originalRow num_rows startDay s i).customer_id ∧
        r.amount = (originalRow num_rows startDay s i).amount ∧
        r.transaction_type = (originalRow num_rows startDay s i).transaction_type ∧
        r.subscription_plan = (originalRow num_rows startDay s i).subscription_plan ∧
        r.category = (originalRow num_rows startDay s i).category ∧
        r.region = (originalRow num_rows startDay s i).region ∧
        r.customer_type = (originalRow num_rows startDay s i).customer_type := by
  intro r hr
  rcases mem_retryRows.1 hr with ⟨idx, hlt, h⟩
  rw [originalRows_getElem hlt] at h
  rw [length_originalRows] at hlt
  obtain ⟨hfail, _, hts, hle, hst, hid, hcid, hamt, htx, hplan, hcat, hreg, hct⟩ :=
    retryOf_eq_some h
  exact ⟨idx, hlt, hfail, hst,
    ⟨s.retryDays idx, (wf.retryDays_range idx).1, (wf.retryDays_range idx).2, hts⟩,
    hle, hid, hcid, hamt, htx, hplan, hcat, hreg, hct⟩

/-! ### Field projections of an original row -/

theorem originalRow_customer_id (num_rows : ℕ) (startDay : ℤ) (s : GenStream) (i : ℕ) :
    (originalRow num_rows startDay s i).customer_id =
      (customerIds num_rows).getD (s.custPick i) "" := rfl

theorem originalRow_customer_type (num_rows : ℕ) (startDay : ℤ) (s : GenStream) (i : ℕ) :
    (originalRow num_rows startDay s i).customer_type = customerTypeOf s (s.custPick i) := rfl

theorem originalRow_plan (num_rows : ℕ) (startDay : ℤ) (s : GenStream) (i : ℕ) :
    (originalRow num_rows startDay s i).subscription_plan =
      customerPlanOf s (s.custPick i) := rfl

theorem originalRow_tx (num_rows : ℕ) (startDay : ℤ) (s : GenStream) (i : ℕ) :
    (originalRow num_rows startDay s i).transaction_type = txTypeOf s i := rfl

theorem originalRow_category (num_rows : ℕ) (startDay : ℤ) (s : GenStream) (i : ℕ) :
    (originalRow num_rows startDay s i).category = categoryOf s i := rfl

theorem originalRow_timestamp (num_rows : ℕ) (startDay : ℤ) (s : GenStream) (i : ℕ) :
    (originalRow num_rows startDay s i).timestamp =
      (timestampsList num_rows startDay s).getD i 0 := rfl

theorem originalRow_amount (num_rows : ℕ) (startDay : ℤ) (s : GenStream) (i : ℕ) :
    (originalRow num_rows startDay s i).amount =
      roundTo2 (seasonalAmountOf s i ((timestampsList num_rows startDay s).getD i 0)
        (customerPlanOf s (s.custPick i))) := rfl

theorem originalRow_tid (num_rows : ℕ) (startDay : ℤ) (s : GenStream) (i : ℕ) :
    (originalRow num_rows startDay s i).transaction_id =
      (if categoryOf s i = "Revenue" then "REV_" else "EXP_") ++ s.uuidPart i := rfl

/-- Provenance with the retry-invariant fields spelled out: every output row
carries the customer, plan, type, amount and category of its originating row. -/
theorem mem_generate_fields {num_rows : ℕ} {startDay endDay : ℤ} {s : GenStream} {r : Row}
    (h : r ∈ generate_synthetic_saas_data num_rows startDay endDay s) :
    ∃ i < num_rows,
      r.customer_id = (originalRow num_rows startDay s i).customer_id ∧
      r.customer_type = (originalRow num_rows startDay s i).customer_type ∧
      r.subscription_plan = (originalRow num_rows startDay s i).subscription_plan ∧
      r.transaction_type = (originalRow num_rows startDay s i).transaction_type ∧
      r.amount = (originalRow num_rows startDay s i).amount ∧
      r.category = (originalRow num_rows startDay s i).category := by
  rcases mem_generate h with ⟨i, hi, ho | hre⟩
  · subst ho
    exact ⟨i, hi, rfl, rfl, rfl, rfl, rfl, rfl⟩
  · obtain ⟨_, _, _, _, _, _, hcid, hamt, htx, hplan, hcat, _, hct⟩ := retryOf_eq_some hre
    exact ⟨i, hi, hcid, hct, hplan, htx, hamt, hcat⟩

/-! ### Claim theorem: the customer maps (C2) -/

theorem length_customerIds (num_rows : ℕ) :
    (customerIds num_rows).length = numCustomers num_rows := by
  simp [customerIds]

theorem customerIds_getD {num_rows c : ℕ} (h : c < numCustomers num_rows) :
    (customerIds num_rows).getD c "" = custId (c + 1) := by
  rw [List.getD_eq_getElem _ _ (by simpa [length_customerIds] using h)]
  simp [customerIds]

/-- C2: in the final output, `customer_id` determines `customer_type` and
`subscription_plan`: any two rows (retry rows included) with the same
`customer_id` agree on both. -/
theorem customer_maps_functional (num_rows : ℕ) (startDay endDay : ℤ) (s : GenStream)
    (wf : GenWF num_rows startDay endDay s) :
    ∀ r₁ ∈ generate_synthetic_saas_data num_rows startDay endDay s,
      ∀ r₂ ∈ generate_synthetic_saas_data num_rows startDay endDay s,
        r₁.customer_id = r₂.customer_id →
          r₁.customer_type = r₂.customer_type ∧
            r₁.subscription_plan = r₂.subscription_plan := by
  intro r₁ h₁ r₂ h₂ hcid
  rcases mem_generate_fields h₁ with ⟨i, _, hc1, ht1, hp1, _, _, _⟩
  rcases mem_generate_fields h₂ with ⟨j, _, hc2, ht2, hp2, _, _, _⟩
  have hc1' : r₁.customer_id = custId (s.custPick i + 1) := by
    rw [hc1, originalRow_customer_id, customerIds_getD (wf.custPick_lt i)]
  have hc2' : r₂.customer_id = custId (s.custPick j + 1) := by
    rw [hc2, originalRow_customer_id, customerIds_getD (wf.custPick_lt j)]
  have hpick : s.custPick i = s.custPick j := by
    have := custId_injective (show custId (s.custPick i + 1) = custId (s.custPick j + 1) by
      rw [← hc1', ← hc2', hcid])
    omega
  constructor
  · rw [ht1, ht2, originalRow_customer_type, originalRow_customer_type, hpick]
  · rw [hp1, hp2, originalRow_plan, originalRow_plan, hpick]

/-! ### Claim theorem: timestamps stay in the requested range (C10) -/

theorem timestampsList_getD_bounds {num_rows : ℕ} {startDay endDay : ℤ} {s : GenStream}
    (wf : GenWF num_rows startDay endDay s) {i : ℕ} (hi : i < num_rows) :
    startDay * secondsPerDay ≤ (timestampsList num_rows startDay s).getD i 0 ∧
      (timestampsList num_rows startDay s).getD i 0 < endDay * secondsPerDay := by
  set sd : List ℤ :=
    ((List.range num_rows).map
      (fun j => startDay + (s.dayOffset j : ℤ))).insertionSort (· ≤ ·) with hsd
  have hdates : ∀ x ∈ sd, startDay ≤ x ∧ x ≤ endDay - 1 := by
    intro x hx
    rw [hsd] at hx
    have hx' := (List.perm_insertionSort (· ≤ ·) _).mem_iff.1 hx
    rcases List.mem_map.1 hx' with ⟨j, _, hval⟩
    have h1 := wf.dayOffset_lt j
    have h2 : (0 : ℤ) ≤ (s.dayOffset j : ℤ) := Int.natCast_nonneg _
    omega
  have hlen : sd.length = num_rows := by
    rw [hsd, List.length_insertionSort]; simp
  have hilen : i < sd.length := by rw [hlen]; exact hi
  have hmem0 : sd.getD i 0 ∈ sd := by
    rw [List.getD_eq_getElem _ _ hilen]
    exact List.getElem_mem _
  have hmem := hdates _ hmem0
  have htl : (timestampsList num_rows startDay s).getD i 0 =
      sd.getD i 0 * secondsPerDay +
      (s.hourOf i : ℤ) * 3600 + (s.minuteOf i : ℤ) * 60 + (s.secondOf i : ℤ) := by
    simp only [timestampsList, ← hsd]
    rw [List.getD_eq_getElem _ _ (by simpa using hi)]
    simp [List.getD_eq_getElem _ _ hilen]
  obtain ⟨hh1, hh2⟩ := wf.hour_range i
  have hm := wf.minute_le i
  have hsec := wf.second_le i
  have hhz : (8 : ℤ) ≤ (s.hourOf i : ℤ) ∧ (s.hourOf i : ℤ) ≤ 20 := by
    exact ⟨by exact_mod_cast hh1, by exact_mod_cast hh2⟩
  have hmz : (s.minuteOf i : ℤ) ≤ 59 := by exact_mod_cast hm
  have hsz : (s.secondOf i : ℤ) ≤ 59 := by exact_mod_cast hsec
  have hmz0 : (0 : ℤ) ≤ (s.minuteOf i : ℤ) := Int.natCast_nonneg _
  have hsz0 : (0 : ℤ) ≤ (s.secondOf i : ℤ) := Int.natCast_nonneg _
  rw [htl]
  simp only [secondsPerDay] at *
  constructor
  · nlinarith [hmem.1, hhz.1, hmz0, hsz0]
  · nlinarith [hmem.2, hhz.2, hmz, hsz]

/-- C10: every timestamp of the final output lies in the requested range:
`start_date ≤ timestamp ≤ end_date` (originals land strictly before
`end_date`; retries are only kept when they do not exceed it). -/
theorem timestamps_in_range (num_rows : ℕ) (startDay endDay : ℤ) (s : GenStream)
    (wf : GenWF num_rows startDay endDay s) :
    ∀ r ∈ generate_synthetic_saas_data num_rows startDay endDay s,
      startDay * secondsPerDay ≤ r.timestamp ∧ r.timestamp ≤ endDay * secondsPerDay := by
  intro r h
  rcases mem_generate h with ⟨i, hi, ho | hre⟩
  · have hb := timestampsList_getD_bounds wf hi
    subst ho
    rw [originalRow_timestamp]
    exact ⟨hb.1, le_of_lt hb.2⟩
  · obtain ⟨_, _, hts, hle, _⟩ := retryOf_eq_some hre
    have hb := timestampsList_getD_bounds wf hi
    refine ⟨?_, hle⟩
    rw [hts, originalRow_timestamp]
    have hd : (1 : ℤ) ≤ (s.retryDays i : ℤ) := by exact_mod_cast (wf.retryDays_range i).1
    have := hb.1
    simp only [secondsPerDay] at *
    nlinarith

/-! ### Amount sign lemmas (C1, C9) -/

theorem round_le_add_half (x : ℚ) : ((round x : ℤ) : ℚ) ≤ x + 1 / 2 := by
  have h := abs_le.1 (abs_sub_round x)
  linarith [h.1, h.2]

theorem roundTo2_nonpos {q : ℚ} (h : q ≤ 0) : roundTo2 q ≤ 0 := by
  unfold roundTo2
  have h1 : ((round (q * 100) : ℤ) : ℚ) ≤ q * 100 + 1 / 2 := round_le_add_half _
  have h2 : q * 100 ≤ 0 := by nlinarith
  have h3 : ((round (q * 100) : ℤ) : ℚ) < 1 := by linarith
  have h4 : round (q * 100) ≤ 0 := by
    have : round (q * 100) < (1 : ℤ) := by exact_mod_cast h3
    omega
  have h5 : ((round (q * 100) : ℤ) : ℚ) ≤ 0 := by exact_mod_cast h4
  linarith [div_nonpos_of_nonpos_of_nonneg h5 (by norm_num : (0:ℚ) ≤ 100)]

theorem roundTo2_neg {q : ℚ} (h : q ≤ -1) : roundTo2 q < 0 := by
  unfold roundTo2
  have h1 : ((round (q * 100) : ℤ) : ℚ) ≤ q * 100 + 1 / 2 := round_le_add_half _
  have h3 : ((round (q * 100) : ℤ) : ℚ) < 0 := by nlinarith
  exact div_neg_of_neg_of_pos h3 (by norm_num)

theorem plan_prices_nonneg (p : String) : 0 ≤ plan_prices p := by
  unfold plan_prices
  split_ifs <;> norm_num

theorem plan_prices_ge {p : String} (hmem : p ∈ subscription_plans) (hf : p ≠ "Free") :
    1999 / 100 ≤ plan_prices p := by
  fin_cases hmem <;> simp_all [plan_prices] <;> norm_num

theorem assign_plan_options_subset (ctype : String) :
    ∀ p ∈ assign_plan_options ctype, p ∈ subscription_plans := by
  intro p hp
  unfold assign_plan_options at hp
  split_ifs at hp <;> fin_cases hp <;> simp [subscription_plans]

theorem customerPlanOf_mem {num_rows : ℕ} {startDay endDay : ℤ} {s : GenStream}
    (wf : GenWF num_rows startDay endDay s) (c : ℕ) :
    customerPlanOf s c ∈ subscription_plans := by
  have h := wf.planIdx_lt c
  unfold customerPlanOf
  have hm : (assign_plan_options (customerTypeOf s c)).getD (s.planIdx c) "" ∈
      assign_plan_options (customerTypeOf s c) := by
    rw [List.getD_eq_getElem _ _ h]
    exact List.getElem_mem _
  exact assign_plan_options_subset _ _ hm

theorem categoryOf_of_refund {s : GenStream} {i : ℕ} (h : txTypeOf s i = "Refund") :
    categoryOf s i = "Revenue" := by
  simp only [categoryOf]
  rw [h]
  simp

theorem txTypeOf_not_sub_of_cat {s : GenStream} {i : ℕ}
    (h : categoryOf s i ≠ "Revenue") : txTypeOf s i ≠ "Subscription" := by
  intro hsub
  apply h
  simp only [categoryOf]
  rw [hsub]
  simp

theorem baseAmountOf_refund {s : GenStream} {i : ℕ} {plan : String}
    (h : txTypeOf s i = "Refund") :
    baseAmountOf s i plan = -plan_prices plan * s.refundFrac i := by
  have hcat := categoryOf_of_refund h
  simp only [baseAmountOf]
  rw [hcat, h]
  simp

theorem baseAmountOf_expense {num_rows : ℕ} {startDay endDay : ℤ} {s : GenStream}
    (wf : GenWF num_rows startDay endDay s) {i : ℕ} {plan : String}
    (h : categoryOf s i ≠ "Revenue") :
    baseAmountOf s i plan ≤ -10 := by
  simp only [baseAmountOf]
  rw [if_neg h]
  split_ifs
  · linarith [(wf.mkt_range i).1]
  · linarith [(wf.infra_range i).1]
  · linarith [(wf.otherExp_range i).1]

theorem seasonalAmountOf_of_not_sub {s : GenStream} {i : ℕ} {ts : Timestamp} {plan : String}
    (h : txTypeOf s i ≠ "Subscription") :
    seasonalAmountOf s i ts plan =
      if monthOf ts = 12 then baseAmountOf s i plan * s.decMult i
      else baseAmountOf s i plan := by
  simp only [seasonalAmountOf]
  simp [h]

theorem seasonal_le_of_base_le_neg {s : GenStream} {i : ℕ} {ts : Timestamp} {plan : String}
    {c : ℚ} (hdec : 11 / 10 ≤ s.decMult i) (hsub : txTypeOf s i ≠ "Subscription")
    (hc : 0 ≤ c) (hbase : baseAmountOf s i plan ≤ -c) :
    seasonalAmountOf s i ts plan ≤ -c := by
  rw [seasonalAmountOf_of_not_sub hsub]
  split_ifs
  · have h1 : baseAmountOf s i plan ≤ 0 := by linarith
    have h2 : (0 : ℚ) ≤ s.decMult i - 1 := by linarith
    nlinarith [mul_nonneg (neg_nonneg.2 h1) h2]
  · exact hbase

/-! ### Claim theorems: amount signs (C1 amended, C9) -/

/-- C1 (amended): every `'Refund'` row of the final output has amount `≤ 0`,
and the amount is strictly negative whenever the row's `subscription_plan` is
not `'Free'`.  (A Free-plan refund has `base_price = 0`, so its amount is
exactly `0`; the claim's unconditional strict negativity fails there.) -/
theorem refund_amount_sign (num_rows : ℕ) (startDay endDay : ℤ) (s : GenStream)
    (wf : GenWF num_rows startDay endDay s) :
    ∀ r ∈ generate_synthetic_saas_data num_rows startDay endDay s,
      r.transaction_type = "Refund" →
        r.amount ≤ 0 ∧ (r.subscription_plan ≠ "Free" → r.amount < 0) := by
  intro r hmem href
  rcases mem_generate_fields hmem with ⟨i, _, _, _, hp, htx, hamt, _⟩
  rw [htx, originalRow_tx] at href
  have hplanmem := customerPlanOf_mem wf (s.custPick i)
  have hfr := wf.refund_range i
  have hdec := wf.dec_range i
  have hsub : txTypeOf s i ≠ "Subscription" := by rw [href]; decide
  have hbase : baseAmountOf s i (customerPlanOf s (s.custPick i)) =
      -plan_prices (customerPlanOf s (s.custPick i)) * s.refundFrac i :=
    baseAmountOf_refund href
  have hpp0 := plan_prices_nonneg (customerPlanOf s (s.custPick i))
  rw [hamt, originalRow_amount]
  constructor
  · apply roundTo2_nonpos
    have hb0 : baseAmountOf s i (customerPlanOf s (s.custPick i)) ≤ -0 := by
      rw [hbase]; nlinarith [hfr.1]
    have := @seasonal_le_of_base_le_neg s i ((timestampsList num_rows startDay s).getD i 0)
      (customerPlanOf s (s.custPick i)) 0 hdec.1 hsub le_rfl hb0
    simpa using this
  · intro hnf
    rw [hp, originalRow_plan] at hnf
    have hpp := plan_prices_ge hplanmem hnf
    apply roundTo2_neg
    have hb1 : baseAmountOf s i (customerPlanOf s (s.custPick i)) ≤ -1 := by
      rw [hbase]; nlinarith [hfr.1]
    exact @seasonal_le_of_base_le_neg s i ((timestampsList num_rows startDay s).getD i 0)
      (customerPlanOf s (s.custPick i)) 1 hdec.1 hsub (by norm_num) hb1

/-- C9: every output row whose `category` is not `'Revenue'` has strictly
negative amount: expense draws have magnitude at least 10, the December
multiplier only scales up, and two-decimal rounding cannot reach 0. -/
theorem expense_amount_negative (num_rows : ℕ) (startDay endDay : ℤ) (s : GenStream)
    (wf : GenWF num_rows startDay endDay s) :
    ∀ r ∈ generate_synthetic_saas_data num_rows startDay endDay s,
      r.category ≠ "Revenue" → r.amount < 0 := by
  intro r hmem hcat
  rcases mem_generate_fields hmem with ⟨i, _, _, _, _, _, hamt, hcatr⟩
  rw [hcatr, originalRow_category] at hcat
  have hsub := txTypeOf_not_sub_of_cat hcat
  have hdec := wf.dec_range i
  have hbase : baseAmountOf s i (customerPlanOf s (s.custPick i)) ≤ -10 :=
    baseAmountOf_expense wf hcat
  rw [hamt, originalRow_amount]
  apply roundTo2_neg
  have h10 := @seasonal_le_of_base_le_neg s i ((timestampsList num_rows startDay s).getD i 0)
    (customerPlanOf s (s.custPick i)) 10 hdec.1 hsub (by norm_num) hbase
  linarith

/-! ### Transaction-id lemmas (C6) -/

theorem string_append_left_cancel {p a b : String} (h : p ++ a = p ++ b) : a = b := by
  have hd := congrArg String.data h
  rw [String.data_append, String.data_append] at hd
  exact String.ext (List.append_cancel_left hd)

theorem rev_ne_exp (u v : String) : ("REV_" ++ u : String) ≠ "EXP_" ++ v := by
  intro h
  have h2 := congrArg String.data h
  rw [String.data_append, String.data_append,
    show "REV_".data = ['R', 'E', 'V', '_'] from rfl,
    show "EXP_".data = ['E', 'X', 'P', '_'] from rfl] at h2
  simp only [List.cons_append] at h2
  injection h2 with h3 _
  exact absurd h3 (by decide)

theorem retry_ne_rev (u v : String) : ("RETRY_" ++ u : String) ≠ "REV_" ++ v := by
  intro h
  have h2 := congrArg String.data h
  rw [String.data_append, String.data_append,
    show "RETRY_".data = ['R', 'E', 'T', 'R', 'Y', '_'] from rfl,
    show "REV_".data = ['R', 'E', 'V', '_'] from rfl] at h2
  simp only [List.cons_append] at h2
  injection h2 with e1 h2
  injection h2 with e2 h2
  injection h2 with e3 _
  exact absurd e3 (by decide)

theorem retry_ne_exp (u v : String) : ("RETRY_" ++ u : String) ≠ "EXP_" ++ v := by
  intro h
  have h2 := congrArg String.data h
  rw [String.data_append, String.data_append,
    show "RETRY_".data = ['R', 'E', 'T', 'R', 'Y', '_'] from rfl,
    show "EXP_".data = ['E', 'X', 'P', '_'] from rfl] at h2
  simp only [List.cons_append] at h2
  injection h2 with e1 _
  exact absurd e1 (by decide)

theorem strSliceFrom_append {p u : String} (hp : p.data.length = 4) :
    strSliceFrom (p ++ u) 4 = u := by
  unfold strSliceFrom
  rw [String.data_append, ← hp, List.drop_left]

/-- The transaction id of a retry record is `'RETRY_'` followed by the
originating row's uuid segment. -/
theorem retry_id {num_rows : ℕ} {startDay endDay : ℤ} {s : GenStream} {idx : ℕ} {r : Row}
    (h : retryOf endDay s idx (originalRow num_rows startDay s idx) = some r) :
    r.transaction_id = "RETRY_" ++ s.uuidPart idx := by
  have hid := (retryOf_eq_some h).2.2.2.2.2.1
  rw [hid, originalRow_tid]
  split_ifs
  · rw [strSliceFrom_append (by rfl)]
  · rw [strSliceFrom_append (by rfl)]

theorem orig_tid_inj {num_rows : ℕ} {startDay : ℤ} {s : GenStream}
    (huuid : ∀ i j, i < num_rows → j < num_rows → s.uuidPart i = s.uuidPart j → i = j)
    {i j : ℕ} (hi : i < num_rows) (hj : j < num_rows)
    (h : (originalRow num_rows startDay s i).transaction_id =
      (originalRow num_rows startDay s j).transaction_id) : i = j := by
  rw [originalRow_tid, originalRow_tid] at h
  by_cases hci : categoryOf s i = "Revenue" <;> by_cases hcj : categoryOf s j = "Revenue"
  · rw [if_pos hci, if_pos hcj] at h
    exact huuid i j hi hj (string_append_left_cancel h)
  · rw [if_pos hci, if_neg hcj] at h
    exact absurd h (rev_ne_exp _ _)
  · rw [if_neg hci, if_pos hcj] at h
    exact absurd h.symm (rev_ne_exp _ _)
  · rw [if_neg hci, if_neg hcj] at h
    exact huuid i j hi hj (string_append_left_cancel h)

theorem nodup_tid_originalRows {num_rows : ℕ} {startDay : ℤ} {s : GenStream}
    (huuid : ∀ i j, i < num_rows → j < num_rows → s.uuidPart i = s.uuidPart j → i = j) :
    ((originalRows num_rows startDay s).map (fun r => r.transaction_id)).Nodup := by
  unfold originalRows
  rw [List.map_map]
  refine List.Nodup.map_on ?_ (List.nodup_range num_rows)
  intro x hx y hy he
  exact orig_tid_inj huuid (List.mem_range.1 hx) (List.mem_range.1 hy) he

theorem tid_of_mem_retryRows {num_rows : ℕ} {startDay endDay : ℤ} {s : GenStream} {r : Row}
    (h : r ∈ retryRows endDay s (originalRows num_rows startDay s)) :
    ∃ idx < num_rows, r.transaction_id = "RETRY_" ++ s.uuidPart idx := by
  rcases mem_retryRows.1 h with ⟨idx, hlt, hro⟩
  rw [originalRows_getElem hlt] at hro
  rw [length_originalRows] at hlt
  exact ⟨idx, hlt, retry_id hro⟩

theorem nodup_tid_retryRows {num_rows : ℕ} {startDay endDay : ℤ} {s : GenStream}
    (huuid : ∀ i j, i < num_rows → j < num_rows → s.uuidPart i = s.uuidPart j → i = j) :
    ((retryRows endDay s (originalRows num_rows startDay s)).map
      (fun r => r.transaction_id)).Nodup := by
  unfold retryRows
  have h : (((List.range (originalRows num_rows startDay s).length).filterMap
      (fun idx => ((originalRows num_rows startDay s)[idx]?).bind
        (retryOf endDay s idx))).map (fun r => r.transaction_id)).Pairwise (· ≠ ·) := by
    rw [List.pairwise_map, List.pairwise_filterMap, List.pairwise_iff_getElem]
    intro i j hi hj hij
    simp only [List.length_range] at hi hj
    simp only [List.getElem_range]
    intro x hx y hy
    rw [Option.mem_def] at hx hy
    rw [List.getElem?_eq_getElem hi, Option.some_bind, originalRows_getElem hi] at hx
    rw [List.getElem?_eq_getElem hj, Option.some_bind, originalRows_getElem hj] at hy
    have hx' := retry_id hx
    have hy' := retry_id hy
    rw [hx', hy']
    intro he
    have := huuid i j (by rwa [length_originalRows] at hi) (by rwa [length_originalRows] at hj)
      (string_append_left_cancel he)
    omega
  exact h

theorem nodup_tid_preSample {num_rows : ℕ} {startDay endDay : ℤ} {s : GenStream}
    (huuid : ∀ i j, i < num_rows → j < num_rows → s.uuidPart i = s.uuidPart j → i = j) :
    ((preSample num_rows startDay endDay s).map (fun r => r.transaction_id)).Nodup := by
  unfold preSample
  have hperm :
      ((sortByTs (originalRows num_rows startDay s ++
          retryRows endDay s (originalRows num_rows startDay s))).map
        (fun r => r.transaction_id)).Perm
      ((originalRows num_rows startDay s ++
          retryRows endDay s (originalRows num_rows startDay s)).map
        (fun r => r.transaction_id)) :=
    (List.perm_insertionSort _ _).map _
  rw [hperm.nodup_iff, List.map_append, List.nodup_append]
  refine ⟨nodup_tid_originalRows huuid, nodup_tid_retryRows huuid, ?_⟩
  intro a ha hb
  rcases List.mem_map.1 ha with ⟨r₁, hr₁, rfl⟩
  rcases List.mem_map.1 hb with ⟨r₂, hr₂, htid⟩
  rcases tid_of_mem_retryRows hr₂ with ⟨idx, _, hid₂⟩
  unfold originalRows at hr₁
  rcases List.mem_map.1 hr₁ with ⟨i, _, rfl⟩
  rw [originalRow_tid] at htid
  rw [hid₂] at htid
  by_cases hci : categoryOf s i = "Revenue"
  · rw [if_pos hci] at htid
    exact retry_ne_rev _ _ htid
  · rw [if_neg hci] at htid
    exact retry_ne_exp _ _ htid

theorem nodup_tid_pandasSample {idxs : List ℕ} {rows : List Row}
    (hnd : (rows.map (fun r => r.transaction_id)).Nodup)
    (hidx : idxs.Nodup) (hb : ∀ j ∈ idxs, j < rows.length) :
    ((pandasSample idxs rows).map (fun r => r.transaction_id)).Nodup := by
  have key : ∀ j k, ∀ hj : j < rows.length, ∀ hk : k < rows.length,
      rows[j].transaction_id = rows[k].transaction_id → j = k := by
    intro j k hj hk he
    have hinj := List.nodup_iff_injective_get.1 hnd
    have hjm : j < (rows.map (fun r => r.transaction_id)).length := by simpa using hj
    have hkm : k < (rows.map (fun r => r.transaction_id)).length := by simpa using hk
    have hget : (rows.map (fun r => r.transaction_id)).get ⟨j, hjm⟩ =
        (rows.map (fun r => r.transaction_id)).get ⟨k, hkm⟩ := by
      simp only [List.get_eq_getElem, List.getElem_map]
      exact he
    simpa using congrArg Fin.val (hinj hget)
  revert hidx hb
  induction idxs with
  | nil =>
    intro hidx hb
    simp [pandasSample]
  | cons j js ih =>
    intro hidx hb
    rw [List.nodup_cons] at hidx
    unfold pandasSample
    rw [List.filterMap_cons]
    rw [List.getElem?_eq_getElem (hb j (List.mem_cons_self j js))]
    simp only [List.map_cons]
    rw [List.nodup_cons]
    constructor
    · intro hmem
      rcases List.mem_map.1 hmem with ⟨r₂, hr₂, htid⟩
      rcases List.mem_filterMap.1 hr₂ with ⟨k, hk, hget⟩
      rcases List.getElem?_eq_some.1 hget with ⟨hklt, hre⟩
      rw [← hre] at htid
      have := key j k (hb j (List.mem_cons_self j js)) hklt htid.symm
      exact hidx.1 (this ▸ hk)
    · exact ih hidx.2 (fun k hk => hb k (List.mem_cons_of_mem j hk))

/-- C6: in the final output all transaction ids are pairwise distinct
(assuming, as the source does of `uuid.uuid4()`, that distinct rows draw
distinct uuid segments), and every id carries one of the prefixes `'REV_'`,
`'EXP_'` or `'RETRY_'`: `'REV_'` exactly on original Revenue rows, `'EXP_'`
exactly on original expense rows, and `'RETRY_'` on the retry records. -/
theorem transaction_ids_unique_and_prefixed (num_rows : ℕ) (startDay endDay : ℤ)
    (s : GenStream) (hs : SampleWF num_rows startDay endDay s)
    (huuid : ∀ i j, i < num_rows → j < num_rows → s.uuidPart i = s.uuidPart j → i = j) :
    ((generate_synthetic_saas_data num_rows startDay endDay s).map
      (fun r => r.transaction_id)).Nodup ∧
    ∀ r ∈ generate_synthetic_saas_data num_rows startDay endDay s,
      (r.category = "Revenue" ∧ ∃ u, r.transaction_id = "REV_" ++ u) ∨
      (r.category ≠ "Revenue" ∧ ∃ u, r.transaction_id = "EXP_" ++ u) ∨
      (∃ i < num_rows,
        retryOf endDay s i (originalRow num_rows startDay s i) = some r ∧
        ∃ u, r.transaction_id = "RETRY_" ++ u) := by
  constructor
  · have hpre : ((preSample num_rows startDay endDay s).map
        (fun r => r.transaction_id)).Nodup := nodup_tid_preSample huuid
    simp only [generate_synthetic_saas_data]
    split_ifs with hc
    · have h1 := nodup_tid_pandasSample hpre hs.2.1 hs.2.2
      have hperm :
          ((sortByTs (pandasSample s.sampleIdxs (preSample num_rows startDay endDay s))).map
            (fun r => r.transaction_id)).Perm
          ((pandasSample s.sampleIdxs (preSample num_rows startDay endDay s)).map
            (fun r => r.transaction_id)) :=
        (List.perm_insertionSort _ _).map _
      exact hperm.nodup_iff.2 h1
    · exact hpre
  · intro r hmem
    rcases mem_generate hmem with ⟨i, hi, ho | hre⟩
    · by_cases hci : categoryOf s i = "Revenue"
      · refine Or.inl ⟨?_, s.uuidPart i, ?_⟩
        · rw [ho, originalRow_category]; exact hci
        · rw [ho, originalRow_tid, if_pos hci]
      · refine Or.inr (Or.inl ⟨?_, s.uuidPart i, ?_⟩)
        · rw [ho, originalRow_category]; exact hci
        · rw [ho, originalRow_tid, if_neg hci]
    · exact Or.inr (Or.inr ⟨i, hi, hre, s.uuidPart i, retry_id hre⟩)

/-! ### Concrete oracles for witnesses and counterexamples -/

/-- A concrete well-formed oracle: ten rows, one customer (type B2C, plan
Basic), every payment `'Completed'`, identity downsampling indices. -/
def wStream : GenStream where
  custTypeIdx := fun _ => 0
  planIdx := fun _ => 1
  dayOffset := fun _ => 5
  hourOf := fun _ => 9
  minuteOf := fun _ => 0
  secondOf := fun _ => 0
  custPick := fun _ => 0
  nonSubRoll := fun _ => false
  nonSubIdx := fun _ => 0
  expCatIdx := fun _ => 0
  upgradeAmt := fun _ => 50
  addonAmt := fun _ => 10
  otpAmt := fun _ => 100
  refundFrac := fun _ => 1
  downgradeAmt := fun _ => 50
  mktAmt := fun _ => 100
  infraAmt := fun _ => 100
  otherExpAmt := fun _ => 100
  regionIdx := fun _ => 0
  statusIdx := fun _ => 0
  eomMult := fun _ => 1
  decMult := fun _ => 6 / 5
  uuidPart := fun i => natStr i
  retryRoll := fun _ => true
  retryDays := fun _ => 3
  sampleIdxs := List.range 10

theorem wStream_wf : GenWF 10 0 30 wStream := by
  constructor <;> intro c <;>
    simp [wStream, customer_types, customerTypeOf, assign_plan_options, numCustomers,
      non_subscription_types, expense_categories, regions, payment_statuses] <;>
    norm_num

theorem retryRows_eq_nil {endDay : ℤ} {s : GenStream} {rows : List Row}
    (h : ∀ r ∈ rows, r.payment_status ≠ "Failed") :
    retryRows endDay s rows = [] := by
  unfold retryRows
  rw [List.filterMap_eq_nil_iff]
  intro idx hidx
  cases hg : rows[idx]? with
  | none => simp
  | some o =>
    rcases List.getElem?_eq_some.1 hg with ⟨hlt, ho⟩
    rw [Option.some_bind]
    unfold retryOf
    rw [if_neg]
    intro hcon
    exact h o (ho ▸ List.getElem_mem hlt) hcon.1

theorem wStream_no_failed : ∀ r ∈ originalRows 10 0 wStream, r.payment_status ≠ "Failed" := by
  intro r hr
  unfold originalRows at hr
  rcases List.mem_map.1 hr with ⟨i, _, rfl⟩
  show ("Completed" : String) ≠ "Failed"
  decide

theorem wStream_sampleWF : SampleWF 10 0 30 wStream := by
  refine ⟨rfl, by decide, ?_⟩
  intro j hj
  rw [length_preSample, retryRows_eq_nil wStream_no_failed]
  simp only [List.length_nil]
  simpa using List.mem_range.1 hj

theorem wStream_uuid_inj :
    ∀ i j, i < 10 → j < 10 → wStream.uuidPart i = wStream.uuidPart j → i = j := by
  intro i j _ _ h
  have h2 : natStr i = natStr j := h
  have h3 := congrArg (fun t => evalDigits t.data) h2
  simpa [evalDigits_natStr] using h3

/-- The same oracle with the single customer on the `'Free'` plan and the
non-subscription roll always firing on `'Refund'`. -/
def cStream : GenStream :=
  { wStream with
      planIdx := fun _ => 0
      nonSubRoll := fun _ => true
      nonSubIdx := fun _ => 0 }

theorem cStream_wf : GenWF 10 0 30 cStream := by
  constructor <;> intro c <;>
    simp [cStream, wStream, customer_types, customerTypeOf, assign_plan_options, numCustomers,
      non_subscription_types, expense_categories, regions, payment_statuses] <;>
    norm_num

theorem cStream_no_failed : ∀ r ∈ originalRows 10 0 cStream, r.payment_status ≠ "Failed" := by
  intro r hr
  unfold originalRows at hr
  rcases List.mem_map.1 hr with ⟨i, _, rfl⟩
  show ("Completed" : String) ≠ "Failed"
  decide

theorem cStream_generate_eq :
    generate_synthetic_saas_data 10 0 30 cStream = preSample 10 0 30 cStream := by
  have hlen : (preSample 10 0 30 cStream).length = 10 := by
    rw [length_preSample, retryRows_eq_nil cStream_no_failed]
    rfl
  simp only [generate_synthetic_saas_data]
  rw [if_neg]
  rw [hlen]
  omega

/-- C1 (counterexample): on a well-formed oracle that puts the only customer
on the `'Free'` plan, the final output contains a `'Refund'` row whose amount
is exactly 0 (`base_price = 0` for Free), so "every Refund row has strictly
negative amount" is false. -/
theorem refund_amount_counterexample :
    GenWF 10 0 30 cStream ∧
      ∃ r ∈ generate_synthetic_saas_data 10 0 30 cStream,
        r.transaction_type = "Refund" ∧ r.amount = 0 := by
  refine ⟨cStream_wf, originalRow 10 0 cStream 1, ?_, ?_, ?_⟩
  · rw [cStream_generate_eq]
    unfold preSample
    apply mem_sortByTs.2
    apply List.mem_append.2
    left
    unfold originalRows
    exact List.mem_map.2 ⟨1, List.mem_range.2 (by norm_num), rfl⟩
  · rw [originalRow_tx]
    decide
  · rw [originalRow_amount]
    have hts : (timestampsList 10 0 cStream).getD 1 0 = 464400 := by decide
    have hplan : customerPlanOf cStream (cStream.custPick 1) = "Free" := by decide
    rw [hts, hplan]
    rw [seasonalAmountOf_of_not_sub (by decide)]
    rw [if_neg (by decide : ¬ monthOf 464400 = 12)]
    rw [baseAmountOf_refund (by decide : txTypeOf cStream 1 = "Refund")]
    rw [show plan_prices "Free" = 0 from rfl]
    norm_num [roundTo2]

/-! ### Witnesses: each hypothesized claim theorem applied at the concrete
oracle `wStream` with `num_rows = 10`, `startDay = 0`, `endDay = 30`. -/

theorem refund_amount_sign_witness :
    GenWF 10 0 30 wStream ∧
      ∀ r ∈ generate_synthetic_saas_data 10 0 30 wStream,
        r.transaction_type = "Refund" →
          r.amount ≤ 0 ∧ (r.subscription_plan ≠ "Free" → r.amount < 0) :=
  ⟨wStream_wf, refund_amount_sign 10 0 30 wStream wStream_wf⟩

theorem customer_maps_functional_witness :
    GenWF 10 0 30 wStream ∧
      ∀ r₁ ∈ generate_synthetic_saas_data 10 0 30 wStream,
        ∀ r₂ ∈ generate_synthetic_saas_data 10 0 30 wStream,
          r₁.customer_id = r₂.customer_id →
            r₁.customer_type = r₂.customer_type ∧
              r₁.subscription_plan = r₂.subscription_plan :=
  ⟨wStream_wf, customer_maps_functional 10 0 30 wStream wStream_wf⟩

theorem generate_length_eq_witness :
    SampleWF 10 0 30 wStream ∧
      (generate_synthetic_saas_data 10 0 30 wStream).length = 10 :=
  ⟨wStream_sampleWF, generate_length_eq 10 0 30 wStream wStream_sampleWF⟩

theorem retry_record_spec_witness :
    GenWF 10 0 30 wStream ∧
      ∀ r ∈ retryRows 30 wStream (originalRows 10 0 wStream),
        ∃ i < 10,
          (originalRow 10 0 wStream i).payment_status = "Failed" ∧
          r.payment_status = "Completed" ∧
          (∃ d : ℕ, 1 ≤ d ∧ d ≤ 7 ∧
            r.timestamp = (originalRow 10 0 wStream i).timestamp + (d : ℤ) * secondsPerDay) ∧
          r.timestamp ≤ 30 * secondsPerDay ∧
          r.transaction_id =
            "RETRY_" ++ strSliceFrom (originalRow 10 0 wStream i).transaction_id 4 ∧
          r.customer_id = (originalRow 10 0 wStream i).customer_id ∧
          r.amount = (originalRow 10 0 wStream i).amount ∧
          r.transaction_type = (originalRow 10 0 wStream i).transaction_type ∧
          r.subscription_plan = (originalRow 10 0 wStream i).subscription_plan ∧
          r.category = (originalRow 10 0 wStream i).category ∧
          r.region = (originalRow 10 0 wStream i).region ∧
          r.customer_type = (originalRow 10 0 wStream i).customer_type :=
  ⟨wStream_wf, retry_record_spec 10 0 30 wStream wStream_wf⟩

theorem transaction_ids_unique_and_prefixed_witness :
    (SampleWF 10 0 30 wStream ∧
      ∀ i j, i < 10 → j < 10 → wStream.uuidPart i = wStream.uuidPart j → i = j) ∧
    ((generate_synthetic_saas_data 10 0 30 wStream).map
      (fun r => r.transaction_id)).Nodup ∧
    ∀ r ∈ generate_synthetic_saas_data 10 0 30 wStream,
      (r.category = "Revenue" ∧ ∃ u, r.transaction_id = "REV_" ++ u) ∨
      (r.category ≠ "Revenue" ∧ ∃ u, r.transaction_id = "EXP_" ++ u) ∨
      (∃ i < 10,
        retryOf 30 wStream i (originalRow 10 0 wStream i) = some r ∧
        ∃ u, r.transaction_id = "RETRY_" ++ u) :=
  ⟨⟨wStream_sampleWF, wStream_uuid_inj⟩,
    transaction_ids_unique_and_prefixed 10 0 30 wStream wStream_sampleWF wStream_uuid_inj⟩

theorem expense_amount_negative_witness :
    GenWF 10 0 30 wStream ∧
      ∀ r ∈ generate_synthetic_saas_data 10 0 30 wStream,
        r.category ≠ "Revenue" → r.amount < 0 :=
  ⟨wStream_wf, expense_amount_negative 10 0 30 wStream wStream_wf⟩

theorem timestamps_in_range_witness :
    GenWF 10 0 30 wStream ∧
      ∀ r ∈ generate_synthetic_saas_data 10 0 30 wStream,
        0 * secondsPerDay ≤ r.timestamp ∧ r.timestamp ≤ 30 * secondsPerDay :=
  ⟨wStream_wf, timestamps_in_range 10 0 30 wStream wStream_wf⟩

end FinDash
